import Mathlib

/-!
Verification development for the Rental-Investment-Evaluator backend.

The repository contains two near-duplicate pipeline variants:
* `src/backend/main.py` — Perplexity + OpenAI pipeline (`strip_markdown_fences`,
  `_safe_float`, `_safe_int`, `fetch_average_rent_from_perplexity`,
  `parse_listings_with_openai`, `evaluate_investment`);
* `src/backend/app.py` — Gemini pipeline (`call_gemini_json`,
  `parse_and_find_properties`, `evaluate_investment`).

Python floats are embedded as exact rationals (`ℚ`), Python ints as `ℤ`,
Python strings as `String` / `List Char`.  JSON values reaching the pure code
after `json.loads` are embedded as the `Json` inductive below.  The network
calls themselves are opaque; each pipeline function takes the *outcome* of the
call (parsed JSON or a failure) as an explicit argument, which is exactly the
boundary at which the source's pure logic begins.
-/

/-- A parsed JSON value as produced by Python's `json.loads` (plus the Python
distinction between `int` and `float`). -/
inductive Json where
  | null
  | bool (b : Bool)
  | int (n : Int)
  | float (q : ℚ)
  | str (s : String)
  | arr (elems : List Json)
  | obj (fields : List (String × Json))

/-- Python `d[k]` / `d.get(k)` lookup on a JSON object; `none` when the key is
absent or the value is not a dict. -/
def Json.get? : Json → String → Option Json
  | .obj fs, k => (fs.find? (fun kv => kv.1 == k)).map (fun kv => kv.2)
  | _, _ => none

/-- Python truthiness of a JSON value (`bool(x)`). -/
def pyTruthy : Json → Bool
  | .null => false
  | .bool b => b
  | .int n => decide (n ≠ 0)
  | .float q => decide (q ≠ 0)
  | .str s => !s.isEmpty
  | .arr l => !l.isEmpty
  | .obj fs => !fs.isEmpty

/-- Python `a or b`: `a` if truthy, else `b`. -/
def pyOr (a b : Json) : Json := if pyTruthy a then a else b

/-- Digit run to a natural number (`int("…")` on an all-digit string). -/
def digitsToNat (l : List Char) : Nat :=
  l.foldl (fun a c => 10 * a + (c.toNat - 48)) 0

/-- The backtick character (the fence delimiter in `strip_markdown_fences`). -/
def backtick : Char := Char.ofNat 96

/-- Characters stripped by Python's `str.strip()` with no argument
(ASCII whitespace; the inputs in this development are ASCII). -/
def pyIsSpace (c : Char) : Bool :=
  c == ' ' || c == '\t' || c == '\n' || c == '\r' || c == '\x0b' || c == '\x0c'

/-- Python `str.lstrip()`. -/
def lstripWs (l : List Char) : List Char := l.dropWhile pyIsSpace

/-- Python `str.rstrip()`. -/
def rstripWs (l : List Char) : List Char := (l.reverse.dropWhile pyIsSpace).reverse

/-- Python `str.strip()`. -/
def stripWs (l : List Char) : List Char := rstripWs (lstripWs l)

/-- Does `l` start with `pat` (Python `str.startswith`)? -/
def startsWithChars : List Char → List Char → Bool
  | [], _ => true
  | _ :: _, [] => false
  | a :: as, b :: bs => a == b && startsWithChars as bs

/-- Does `l` end with `pat` (Python `str.endswith`)? -/
def endsWithChars (pat l : List Char) : Bool :=
  startsWithChars pat.reverse l.reverse

/-- Index of the first occurrence of character `c` (`str.find` for a
one-character needle), `none` when absent (Python returns `-1`). -/
def findChar (c : Char) : List Char → Option Nat
  | [] => none
  | a :: as => if a == c then some 0 else (findChar c as).map (· + 1)

/-- The three-backtick fence delimiter. -/
def fenceChars : List Char := [backtick, backtick, backtick]

/-- Index of the last occurrence of the fence delimiter (`str.rfind("```")`). -/
def rfindFence (l : List Char) : Option Nat :=
  ((List.range l.length).filter (fun i => startsWithChars fenceChars (l.drop i))).getLast?

/-- `strip_markdown_fences` from `src/backend/main.py`, character-level core. -/
def stripFencesChars (text0 : List Char) : List Char :=
  let text := stripWs text0
  if startsWithChars fenceChars text then
    let text1 :=
      match findChar '\n' text with
      | some i => text.drop (i + 1)
      | none => text.dropWhile (· == backtick)
    if endsWithChars fenceChars (rstripWs text1) then
      let text2 := rstripWs text1
      match rfindFence text2 with
      | some e => stripWs (text2.take e)
      | none => text2
    else text1
  else text

/-- `strip_markdown_fences` from `src/backend/main.py`. -/
def strip_markdown_fences (s : String) : String :=
  (stripFencesChars s.toList).asString

example : strip_markdown_fences "  hi  " = "hi" := by decide
example : strip_markdown_fences "```\n```x" = "```x" := by decide
example : strip_markdown_fences "```x" = "x" := by decide

/-!  ## Numeric coercion utilities (`_safe_float`, `_safe_int` in main.py)  -/

/-- Does Python's `float()` accept this digits-and-dots string?  For a string
containing only digits and `'.'` it succeeds exactly when there is at most one
dot and at least one digit (`"1."`, `".5"`, `"12"` parse; `""`, `"."`,
`"1.2.3"` raise `ValueError`). -/
def pyFloatAccepts (l : List Char) : Bool :=
  l.all (fun c => c.isDigit || c == '.') && decide (l.count '.' ≤ 1) &&
    l.any Char.isDigit

/-- Exact value of a digits-and-dots decimal literal. -/
def ratOfDigits (l : List Char) : ℚ :=
  let ip := l.takeWhile (fun c => c ≠ '.')
  let fp := (l.dropWhile (fun c => c ≠ '.')).drop 1
  (digitsToNat ip : ℚ) + (digitsToNat fp : ℚ) / ((10 : ℚ) ^ fp.length)

/-- Python `float()` on a string made of digits and dots. -/
def parseDigitsDot (l : List Char) : Option ℚ :=
  if pyFloatAccepts l then some (ratOfDigits l) else none

/-- `re.sub(r"[^0-9.]", "", x)` from `_safe_float`: keep only digits and
decimal points. -/
def cleanedOf (s : String) : List Char :=
  s.toList.filter (fun c => c.isDigit || c == '.')

/-- `_safe_float` from `src/backend/main.py`: numbers pass through (Python
`bool` counts as `int`, `float(True) = 1.0`); strings are filtered down to
digits and decimal points and parsed; anything else is a `TypeError`.
Failure (`ValueError`/`TypeError`) is `none`. -/
def _safe_float : Json → Option ℚ
  | .int n => some (n : ℚ)
  | .float q => some q
  | .bool b => some (if b then 1 else 0)
  | .str s =>
    let cleaned := cleanedOf s
    if cleaned.isEmpty then none else parseDigitsDot cleaned
  | _ => none

/-- Python `int()` truncation (toward zero) of a float. -/
def pyTrunc (q : ℚ) : Int := if 0 ≤ q then ⌊q⌋ else -⌊-q⌋

/-- `_safe_int` from `src/backend/main.py`: ints (and bools) pass through,
floats are truncated, and for a string the first maximal run of digits
(`re.search(r"\d+")` — no sign is captured) is parsed; `none` models the
raised `ValueError`/`TypeError`. -/
def _safe_int : Json → Option Int
  | .int n => some n
  | .bool b => some (if b then 1 else 0)
  | .float q => some (pyTrunc q)
  | .str s =>
    let run := (s.toList.dropWhile (fun c => !c.isDigit)).takeWhile Char.isDigit
    if run.isEmpty then none else some (digitsToNat run : Int)
  | _ => none

example : _safe_float (Json.str "$450,000") = some 450000 := by with_unfolding_all rfl
example : _safe_float (Json.str "900 sq ft") = some 900 := by with_unfolding_all rfl
example : _safe_float (Json.str "N/A") = none := by decide
example : _safe_float (Json.str "0") = some 0 := by with_unfolding_all rfl
example : _safe_float (Json.str "1.2.3") = none := by decide
example : _safe_float (Json.str "3.5") = some (7/2) := by with_unfolding_all rfl
example : _safe_int (Json.str "2 bd") = some 2 := by decide
example : _safe_int (Json.str "-3") = some 3 := by decide
example : _safe_int (Json.str "studio") = none := by decide

/-!  ## Data model (`SearchParams`, `PropertyResult`, `EvaluationResponse`)  -/

/-- `SearchParams` (identical in main.py and app.py). -/
structure SearchParams where
  minPrice : ℚ
  maxPrice : ℚ
  area : String
  bedrooms : Int
  minSqft : ℚ
  maxSqft : ℚ
deriving DecidableEq

/-- `PropertyResult` (identical fields in main.py and app.py). -/
structure PropertyResult where
  id : String
  address : String
  price : ℚ
  bedrooms : Int
  sqft : ℚ
  estimatedRent : ℚ
  grossYield : ℚ
  url : String
deriving DecidableEq

/-- `EvaluationResponse` (identical in main.py and app.py). -/
structure EvaluationResponse where
  averageRent : ℚ
  currency : String
  properties : List PropertyResult
deriving DecidableEq

/-- Python's `float()` builtin on a string: optional surrounding whitespace,
optional sign, then a decimal literal of digits with at most one point.
(Exponent/`inf`/`nan` forms are not modelled; no input in this development
uses them.) -/
def pyFloatOfStr (s : String) : Option ℚ :=
  match stripWs s.toList with
  | '+' :: rest => parseDigitsDot rest
  | '-' :: rest => (parseDigitsDot rest).map (fun q => -q)
  | t => parseDigitsDot t

/-- Python's `float()` builtin on a JSON value (`bool` is an `int` subclass,
so `float(True) = 1.0`; lists/dicts/None raise `TypeError`). -/
def pyFloat : Json → Option ℚ
  | .int n => some (n : ℚ)
  | .float q => some q
  | .bool b => some (if b then 1 else 0)
  | .str s => pyFloatOfStr s
  | _ => none

/-- Python's `str()` on a JSON value, as used for the `address`, `id` and
`url` fields in main.py.  For the container cases Python renders the full
structure; no theorem in this development inspects those strings, so they
are abstracted to markers. -/
def pyStr : Json → String
  | .str s => s
  | .int n => toString n
  | .float q => toString q
  | .bool b => if b then "True" else "False"
  | .null => "None"
  | .arr _ => "<list>"
  | .obj _ => "<dict>"

/-!  ## main.py: `fetch_average_rent_from_perplexity` (pure core)

The HTTP transport, envelope unpacking and `json.loads` (after
`strip_markdown_fences`) are the effectful boundary; the function below takes
their outcome: `none` for a `json.JSONDecodeError` ("Failed to parse rent
JSON"), `some parsed` for a successfully parsed JSON value.  The error
strings are the (static parts of the) `HTTPException` details raised by the
source. -/

/-- The pure tail of `fetch_average_rent_from_perplexity` in main.py:
`avg = float(parsed["average_rent_usd"])`, rejecting `avg <= 0`; every
exception in that block (missing key, non-dict, unconvertible value,
non-positive value) is turned into the same `HTTPException`. -/
def fetch_average_rent_from_perplexity (parsed? : Option Json) : Except String ℚ :=
  match parsed? with
  | none => .error "Failed to parse rent JSON from Perplexity"
  | some parsed =>
    match parsed with
    | .obj _ =>
      match parsed.get? "average_rent_usd" with
      | none => .error "Rent JSON missing or invalid fields"
      | some v =>
        match pyFloat v with
        | none => .error "Rent JSON missing or invalid fields"
        | some avg =>
          if avg ≤ 0 then .error "Rent JSON missing or invalid fields" else .ok avg
    | _ => .error "Rent JSON missing or invalid fields"

example : fetch_average_rent_from_perplexity
    (some (Json.obj [("average_rent_usd", Json.int 2600)])) = .ok 2600 := by
  with_unfolding_all rfl
example : fetch_average_rent_from_perplexity
    (some (Json.obj [("average_rent_usd", Json.int 0)])) =
    .error "Rent JSON missing or invalid fields" := by with_unfolding_all rfl
example : fetch_average_rent_from_perplexity (some (Json.obj [("min_rent_usd", Json.int 5)])) =
    .error "Rent JSON missing or invalid fields" := by with_unfolding_all rfl

/-!  ## main.py: `parse_listings_with_openai` (pure core)

The function's effectful head (the OpenAI chat call and `json.loads` of its
reply) is the boundary; everything from `data.get("properties", [])` onward
is pure and embedded below.  A record-level exception in the `for` loop is
caught and skips only that record; an exception outside it (e.g. `data` not
being a dict) is caught by the outer `except` and fails the run. -/

/-- Python `p.get(k, default)` on a record taken from the properties array. -/
def dictGet (p : Json) (k : String) (d : Json) : Json := (p.get? k).getD d

/-- `price_raw = p.get("price_usd") or p.get("price") or p.get("asking_price")`
— note Python `or` semantics: a *falsy* present value (0, "", False) falls
through to the next alias. -/
def price_raw_of (p : Json) : Json :=
  pyOr (dictGet p "price_usd" .null)
    (pyOr (dictGet p "price" .null) (dictGet p "asking_price" .null))

/-- One iteration of the `for i, p in enumerate(raw_props, start=1)` body of
`parse_listings_with_openai`.  `none` models the per-record `except ...:
continue`.  A non-dict element raises `AttributeError` at `p.get`, also
caught per-record. -/
def parseListing (avg_rent_hint : ℚ) (params : SearchParams) (i : Nat) (p : Json) :
    Option PropertyResult :=
  match p with
  | .obj _ =>
    match price_raw_of p with
    | .null => none  -- `raise KeyError("Missing price")`
    | price_raw =>
      match _safe_float price_raw with
      | none => none  -- CoercionError: skip this record
      | some price =>
        let est_rent := avg_rent_hint  -- `float(avg_rent_hint)` on a float
        match _safe_int (dictGet p "bedrooms" (.int params.bedrooms)) with
        | none => none
        | some bedrooms =>
          match _safe_float
              (dictGet p "sqft" (.float ((params.minSqft + params.maxSqft) / 2))) with
          | none => none
          | some sqft =>
            let address := pyStr (dictGet p "address" (.str "Unknown address"))
            let pid := pyStr (dictGet p "id" (.str ("prop-" ++ toString i)))
            let url := pyStr (dictGet p "url" (.str ""))
            if price ≤ 0 ∨ est_rent ≤ 0 then none  -- `raise ValueError(...)`
            else
              some { id := pid, address := address, price := price,
                     bedrooms := bedrooms, sqft := sqft, estimatedRent := est_rent,
                     grossYield := est_rent * 12 / price, url := url }
  | _ => none

/-- The `for` loop of `parse_listings_with_openai` over `raw_props`, with the
1-based `enumerate` index; skipped records keep consuming indices. -/
def normalizeFrom (avg : ℚ) (params : SearchParams) : Nat → List Json → List PropertyResult
  | _, [] => []
  | i, p :: rest =>
    match parseListing avg params i p with
    | some r => r :: normalizeFrom avg params (i + 1) rest
    | none => normalizeFrom avg params (i + 1) rest

/-- `parse_listings_with_openai` from main.py, from `data = json.loads(content)`
onward (`data` is the argument).  `raw_props = data.get("properties", [])`
with a non-list value replaced by `[]`; a non-dict `data` raises inside the
outer `try` and becomes an `HTTPException` (`.error`). -/
def parse_listings_with_openai (data : Json) (avg_rent_hint : ℚ)
    (params : SearchParams) : Except String (List PropertyResult) :=
  match data with
  | .obj _ =>
    let raw_props :=
      match data.get? "properties" with
      | some (.arr l) => l
      | _ => []
    .ok (normalizeFrom avg_rent_hint params 1 raw_props)
  | _ => .error "OpenAI listings parsing/estimation error"

/-!  ## Stable descending sort (`sorted(..., key=lambda p: p.grossYield, reverse=True)`)

Python's `sorted`/`list.sort` is a stable sort; with `reverse=True` it yields
the descending order in which elements of equal key keep their original
relative order.  A stable sort is unique as a function of the key order, so
the straightforward stable insertion sort below is *the* function computed by
the source. -/

/-- Insert `p` before the first element whose `grossYield` is `≤ p`'s
(so `p` goes in front of equal-yield elements that came later in the run). -/
def insertDesc (p : PropertyResult) : List PropertyResult → List PropertyResult
  | [] => [p]
  | q :: qs => if q.grossYield ≤ p.grossYield then p :: q :: qs else q :: insertDesc p qs

/-- Stable sort, descending by `grossYield`. -/
def pySortDesc : List PropertyResult → List PropertyResult
  | [] => []
  | p :: ps => insertDesc p (pySortDesc ps)

/-!  ## main.py: `/api/evaluate` (`evaluate_investment`)

`call_perplexity_investment_agent` chains the rent fetch, the listings-text
fetch (an opaque string, consumed only by the OpenAI prompt) and the
normalizer; the endpoint then sorts.  The two effectful outcomes are passed
explicitly: the rent stage's result, and the parsed JSON of the OpenAI reply
(`none` = `json.JSONDecodeError`). -/

/-- `evaluate_investment` from main.py composed with
`call_perplexity_investment_agent`. -/
def evaluate_investment (rentResult : Except String ℚ) (openaiData? : Option Json)
    (params : SearchParams) : Except String EvaluationResponse :=
  match rentResult with
  | .error e => .error e
  | .ok avg_rent =>
    match openaiData? with
    | none => .error "Failed to parse JSON from OpenAI listings parser"
    | some data =>
      match parse_listings_with_openai data avg_rent params with
      | .error e => .error e
      | .ok properties =>
        .ok { averageRent := avg_rent, currency := "USD",
              properties := pySortDesc properties }

/-- The profile used by the repository's own test scripts
(`test_perpex.py`, `debug.py`). -/
def brooklynParams : SearchParams :=
  { minPrice := 300000, maxPrice := 550000, area := "Brooklyn, NY",
    bedrooms := 2, minSqft := 700, maxSqft := 1100 }

example :
    parse_listings_with_openai
      (Json.obj [("properties",
        Json.arr [Json.obj [("price_usd", Json.int 450000)]])]) 2600 brooklynParams
    = .ok [{ id := "prop-1", address := "Unknown address", price := 450000,
             bedrooms := 2, sqft := 900, estimatedRent := 2600,
             grossYield := 26/375, url := "" }] := by with_unfolding_all rfl

/-!  ## app.py: Gemini pipeline

`call_gemini_json` posts a prompt, unpacks the Gemini envelope and parses the
reply; *any* exception in that block is swallowed and replaced by the literal
fallback dict `{"average_rent": 0, "error": str(e)}`.  The function below
takes the outcome of the effectful part (the parsed reply, or the exception
message). -/

/-- `call_gemini_json` from app.py: success passes the parsed JSON through,
any failure returns the zero fallback dict. -/
def call_gemini_json (resp : Except String Json) : Json :=
  match resp with
  | .ok j => j
  | .error e => .obj [("average_rent", .int 0), ("error", .str e)]

/-- A JSON value in a Python numeric context (`price > 0`, `avg_rent * 12`):
ints and floats are numbers, `bool` is an int; anything else raises
`TypeError`. -/
def pyNum : Json → Option ℚ
  | .int n => some (n : ℚ)
  | .float q => some q
  | .bool b => some (if b then 1 else 0)
  | _ => none

/-- Pydantic coercion to the `int` field `bedrooms`: ints pass, floats must
be integral, strings must be (signed) integer literals; other types fail
validation. -/
def pydanticInt : Json → Option Int
  | .int n => some n
  | .float q => if q.den == 1 then some q.num else none
  | .str s =>
    match stripWs s.toList with
    | '-' :: ds => if !ds.isEmpty && ds.all Char.isDigit
                   then some (-(digitsToNat ds : Int)) else none
    | '+' :: ds => if !ds.isEmpty && ds.all Char.isDigit
                   then some (digitsToNat ds : Int) else none
    | ds => if !ds.isEmpty && ds.all Char.isDigit
            then some (digitsToNat ds : Int) else none
  | _ => none

/-- Pydantic coercion to a `float` field: ints and floats pass, numeric
strings are parsed; other types fail validation. -/
def pydanticFloat : Json → Option ℚ
  | .int n => some (n : ℚ)
  | .float q => some q
  | .str s => pyFloatOfStr s
  | _ => none

/-- Python's rounding of a float to 4 decimal places, as performed by
`float(f"{gross_yield:.4f}")` in app.py.  Ties round half-to-even on the
underlying binary float; no value in this development sits on a tie of the
rational model, so round-half-up on the exact rational is the faithful
embedding for every input used here. -/
def round4 (q : ℚ) : ℚ := ((q * 10000 + 1/2).floor : ℚ) / 10000

/-- One iteration of the `for idx, item in enumerate(listings)` body of
`parse_and_find_properties` in app.py.  There is **no** per-record exception
handler here: any failure (non-dict item, non-numeric price, pydantic
validation) aborts the whole endpoint, modelled as `.error`. -/
def appItemToResult (params : SearchParams) (avg_rent : ℚ) (idx : Nat) (item : Json) :
    Except String PropertyResult :=
  match item with
  | .obj _ =>
    match pyNum (dictGet item "price" (.int 0)) with
    | none => .error "TypeError: price is not comparable to 0"
    | some price =>
      let gross_yield := if 0 < price then (avg_rent * 12) / price else 0
      match pydanticInt (dictGet item "bedrooms" (.int params.bedrooms)) with
      | none => .error "ValidationError: bedrooms"
      | some bedrooms =>
        match pydanticFloat (dictGet item "sqft" (.int 0)) with
        | none => .error "ValidationError: sqft"
        | some sqft =>
          match dictGet item "address" (.str "Unknown") with
          | .str address =>
            match dictGet item "url" (.str "") with
            | .str url =>
              .ok { id := "prop_" ++ toString idx, address := address,
                    price := price, bedrooms := bedrooms, sqft := sqft,
                    estimatedRent := avg_rent,
                    grossYield := round4 gross_yield, url := url }
            | _ => .error "ValidationError: url"
          | _ => .error "ValidationError: address"
  | _ => .error "AttributeError: item has no attribute get"

/-- The `for` loop of `parse_and_find_properties` (0-based `enumerate`);
the first exception aborts the batch. -/
def appResultsFrom (params : SearchParams) (avg : ℚ) :
    Nat → List Json → Except String (List PropertyResult)
  | _, [] => .ok []
  | idx, item :: rest =>
    match appItemToResult params avg idx item with
    | .error e => .error e
    | .ok r =>
      match appResultsFrom params avg (idx + 1) rest with
      | .error e => .error e
      | .ok rs => .ok (r :: rs)

/-- `parse_and_find_properties` from app.py, from `data` (the parsed Gemini
reply) onward.  `data.get("listings", [])`; iterating a non-list truthy
value fails at `item.get` and aborts the endpoint.  (The degenerate Python
case of a `listings` value that is an empty string — iterating zero items —
is not modelled; no input here uses it.) -/
def parse_and_find_properties (params : SearchParams) (avg_rent : ℚ) (data : Json) :
    Except String (List PropertyResult) :=
  match data with
  | .obj _ =>
    match data.get? "listings" with
    | some (.arr l) => appResultsFrom params avg_rent 0 l
    | none => appResultsFrom params avg_rent 0 []
    | some _ => .error "TypeError: listings is not a list of records"
  | _ => .error "AttributeError: data has no attribute get"

/-- `evaluate_investment` (the `/api/evaluate` endpoint) from app.py:
`avg_rent = rent_data.get("average_rent", 0)`, then listing generation, then
the stable descending in-place sort by `grossYield`.  The two Gemini call
outcomes are the explicit arguments. -/
def app_evaluate_investment (rentResp listingsResp : Except String Json)
    (params : SearchParams) : Except String EvaluationResponse :=
  let rent_data := call_gemini_json rentResp
  match pyNum (dictGet rent_data "average_rent" (.int 0)) with
  | none => .error "TypeError: average_rent is not a number"
  | some avg_rent =>
    let data := call_gemini_json listingsResp
    match parse_and_find_properties params avg_rent data with
    | .error e => .error e
    | .ok properties =>
      .ok { averageRent := avg_rent, currency := "USD",
            properties := pySortDesc properties }

example :
    app_evaluate_investment (.error "Gemini API Error") (.ok (Json.obj [("listings",
      Json.arr [Json.obj [("price", Json.int 500000)]])])) brooklynParams
    = .ok { averageRent := 0, currency := "USD",
            properties := [{ id := "prop_0", address := "Unknown", price := 500000,
                             bedrooms := 2, sqft := 0, estimatedRent := 0,
                             grossYield := 0, url := "" }] } := by with_unfolding_all rfl

/-!  ## Helper lemmas: the normalizer's record invariants  -/

/-- A record surviving the main.py normalizer loop has positive price, the
run's average rent (itself positive) as `estimatedRent`, and the exact
unrounded gross yield. -/
theorem parseListing_inv {avg : ℚ} {params : SearchParams} {i : Nat} {p : Json}
    {r : PropertyResult} (h : parseListing avg params i p = some r) :
    0 < r.price ∧ r.estimatedRent = avg ∧ 0 < avg ∧
      r.grossYield = r.estimatedRent * 12 / r.price := by
  unfold parseListing at h
  split at h
  · split at h
    · exact Option.noConfusion h
    · split at h
      · exact Option.noConfusion h
      · split at h
        · exact Option.noConfusion h
        · split at h
          · exact Option.noConfusion h
          · dsimp only at h
            split at h
            · exact Option.noConfusion h
            · rename_i hguard
              push_neg at hguard
              injection h with h
              subst h
              exact ⟨hguard.1, rfl, hguard.2, rfl⟩
  · exact Option.noConfusion h

/-- Every record produced by the normalizer loop comes from `parseListing`. -/
theorem normalizeFrom_mem {avg : ℚ} {params : SearchParams} {i : Nat}
    {l : List Json} {r : PropertyResult} (h : r ∈ normalizeFrom avg params i l) :
    ∃ j p, parseListing avg params j p = some r := by
  induction l generalizing i with
  | nil => simp [normalizeFrom] at h
  | cons p rest ih =>
    unfold normalizeFrom at h
    split at h
    · rename_i hp
      rcases List.mem_cons.1 h with rfl | h
      · exact ⟨i, p, hp⟩
      · exact ih h
    · exact ih h

/-!  ## Helper lemmas: the stable descending sort  -/

theorem mem_insertDesc {p x : PropertyResult} {l : List PropertyResult} :
    x ∈ insertDesc p l ↔ x = p ∨ x ∈ l := by
  induction l with
  | nil => simp [insertDesc]
  | cons q qs ih =>
    unfold insertDesc
    split
    · simp [List.mem_cons]
    · simp only [List.mem_cons, ih]
      tauto

theorem pairwise_insertDesc {p : PropertyResult} {l : List PropertyResult}
    (h : l.Pairwise (fun a b => b.grossYield ≤ a.grossYield)) :
    (insertDesc p l).Pairwise (fun a b => b.grossYield ≤ a.grossYield) := by
  induction l with
  | nil => simp [insertDesc]
  | cons q qs ih =>
    rw [List.pairwise_cons] at h
    obtain ⟨hq, hqs⟩ := h
    unfold insertDesc
    split
    · rename_i hle
      rw [List.pairwise_cons]
      refine ⟨fun x hx => ?_, List.pairwise_cons.2 ⟨hq, hqs⟩⟩
      rcases List.mem_cons.1 hx with rfl | hx
      · exact hle
      · exact le_trans (hq x hx) hle
    · rename_i hgt
      rw [List.pairwise_cons]
      refine ⟨fun x hx => ?_, ih hqs⟩
      rcases mem_insertDesc.1 hx with rfl | hx
      · exact le_of_not_le hgt
      · exact hq x hx

theorem pairwise_pySortDesc (l : List PropertyResult) :
    (pySortDesc l).Pairwise (fun a b => b.grossYield ≤ a.grossYield) := by
  induction l with
  | nil => simp [pySortDesc]
  | cons p ps ih =>
    show (insertDesc p (pySortDesc ps)).Pairwise _
    exact pairwise_insertDesc ih

/-- The insertion point passes only strictly larger yields, so filtering on
any one yield value commutes with insertion: this is stability. -/
theorem filter_insertDesc (y : ℚ) (p : PropertyResult) (l : List PropertyResult) :
    (insertDesc p l).filter (fun x => decide (x.grossYield = y)) =
      if p.grossYield = y
      then p :: l.filter (fun x => decide (x.grossYield = y))
      else l.filter (fun x => decide (x.grossYield = y)) := by
  induction l with
  | nil =>
    by_cases hp : p.grossYield = y <;> simp [insertDesc, List.filter, hp]
  | cons q qs ih =>
    unfold insertDesc
    split
    · rename_i hle
      by_cases hp : p.grossYield = y <;> simp [List.filter_cons, hp]
    · rename_i hgt
      by_cases hp : p.grossYield = y
      · have hq : ¬ q.grossYield = y := by
          intro hqy
          exact hgt (le_of_eq (hqy.trans hp.symm))
        simp [List.filter_cons, hp, hq, ih]
      · by_cases hq : q.grossYield = y <;> simp [List.filter_cons, hp, hq, ih]

theorem filter_pySortDesc (y : ℚ) (l : List PropertyResult) :
    (pySortDesc l).filter (fun x => decide (x.grossYield = y)) =
      l.filter (fun x => decide (x.grossYield = y)) := by
  induction l with
  | nil => rfl
  | cons p ps ih =>
    show (insertDesc p (pySortDesc ps)).filter _ = _
    rw [filter_insertDesc, ih]
    by_cases hp : p.grossYield = y <;> simp [List.filter_cons, hp]

theorem mem_pySortDesc {x : PropertyResult} {l : List PropertyResult} :
    x ∈ pySortDesc l ↔ x ∈ l := by
  induction l with
  | nil => simp [pySortDesc]
  | cons p ps ih =>
    show x ∈ insertDesc p (pySortDesc ps) ↔ _
    rw [mem_insertDesc]
    simp [ih]

/-!  ## Helper lemmas: the app.py listing loop  -/

/-- Every record built by the app.py loop carries the run's `avg_rent` as
`estimatedRent` and a gross yield rounded to 4 decimals *at construction*. -/
theorem appItemToResult_inv {params : SearchParams} {avg : ℚ} {idx : Nat}
    {item : Json} {r : PropertyResult}
    (h : appItemToResult params avg idx item = .ok r) :
    r.estimatedRent = avg ∧
      r.grossYield = round4 (if 0 < r.price then r.estimatedRent * 12 / r.price else 0) := by
  unfold appItemToResult at h
  split at h
  · split at h
    · exact Except.noConfusion h
    · dsimp only at h
      split at h
      · exact Except.noConfusion h
      · split at h
        · exact Except.noConfusion h
        · split at h
          · split at h
            · injection h with h
              subst h
              exact ⟨rfl, rfl⟩
            · exact Except.noConfusion h
          · exact Except.noConfusion h
  · exact Except.noConfusion h

/-- Every record in a successful app.py batch comes from `appItemToResult`. -/
theorem appResultsFrom_mem {params : SearchParams} {avg : ℚ} {idx : Nat}
    {l : List Json} {props : List PropertyResult} {r : PropertyResult}
    (h : appResultsFrom params avg idx l = .ok props) (hr : r ∈ props) :
    ∃ j item, appItemToResult params avg j item = .ok r := by
  induction l generalizing idx props with
  | nil =>
    unfold appResultsFrom at h
    injection h with h
    subst h
    exact absurd hr (List.not_mem_nil r)
  | cons item rest ih =>
    unfold appResultsFrom at h
    split at h
    · exact Except.noConfusion h
    · rename_i r' hitem
      split at h
      · exact Except.noConfusion h
      · rename_i rs hrest
        injection h with h
        subst h
        rcases List.mem_cons.1 hr with rfl | hr
        · exact ⟨idx, item, hitem⟩
        · exact ih hrest hr

/-!  ## Helper lemmas: endpoint inversion  -/

theorem parse_ok_mem {data : Json} {avg : ℚ} {params : SearchParams}
    {props : List PropertyResult} {r : PropertyResult}
    (h : parse_listings_with_openai data avg params = .ok props) (hr : r ∈ props) :
    ∃ j p, parseListing avg params j p = some r := by
  unfold parse_listings_with_openai at h
  split at h
  · injection h with h
    subst h
    exact normalizeFrom_mem hr
  · exact Except.noConfusion h

theorem evaluate_ok_inv {rentq : ℚ} {data : Json} {params : SearchParams}
    {resp : EvaluationResponse}
    (h : evaluate_investment (.ok rentq) (some data) params = .ok resp) :
    ∃ props, parse_listings_with_openai data rentq params = .ok props ∧
      resp = { averageRent := rentq, currency := "USD",
               properties := pySortDesc props } := by
  dsimp only [evaluate_investment] at h
  split at h
  · exact Except.noConfusion h
  · rename_i props hprops
    injection h with h
    exact ⟨props, hprops, h.symm⟩

theorem app_parse_ok_mem {params : SearchParams} {avg : ℚ} {data : Json}
    {props : List PropertyResult} {r : PropertyResult}
    (h : parse_and_find_properties params avg data = .ok props) (hr : r ∈ props) :
    ∃ j item, appItemToResult params avg j item = .ok r := by
  unfold parse_and_find_properties at h
  split at h
  · split at h
    · exact appResultsFrom_mem h hr
    · exact appResultsFrom_mem h hr
    · exact Except.noConfusion h
  · exact Except.noConfusion h

theorem app_evaluate_ok_inv {rentResp listingsResp : Except String Json}
    {params : SearchParams} {resp : EvaluationResponse}
    (h : app_evaluate_investment rentResp listingsResp params = .ok resp) :
    ∃ avg props,
      pyNum (dictGet (call_gemini_json rentResp) "average_rent" (.int 0)) = some avg ∧
      parse_and_find_properties params avg (call_gemini_json listingsResp) = .ok props ∧
      resp = { averageRent := avg, currency := "USD",
               properties := pySortDesc props } := by
  dsimp only [app_evaluate_investment] at h
  split at h
  · exact Except.noConfusion h
  · rename_i avg havg
    split at h
    · exact Except.noConfusion h
    · rename_i props hprops
      injection h with h
      exact ⟨avg, props, havg, hprops, h.symm⟩

/-!  ## Claim C1  -/

/-- A listings reply whose `properties` array is empty. -/
def emptyPropsData : Json := Json.obj [("properties", Json.arr [])]

/-- A listings reply with one valid record (price 500000, everything else
defaulted). -/
def posListingData : Json :=
  Json.obj [("properties", Json.arr [Json.obj [("price_usd", Json.int 500000)]])]

/-- The record the main.py normalizer yields from `posListingData` under
`brooklynParams` and average rent 2600 (yield 2600·12/500000 = 39/625). -/
def posRecord : PropertyResult :=
  { id := "prop-1", address := "Unknown address", price := 500000, bedrooms := 2,
    sqft := 900, estimatedRent := 2600, grossYield := 39/625, url := "" }

/-- C1 counterexample: the claim says a run in which normalization produces
zero surviving records must fail with `NoValidListingsError`.  The code has
no such error: this run's normalization survives zero records, yet the
pipeline *succeeds* with an empty `properties` list, indistinguishable from a
zero-match result. -/
theorem c1_counterexample :
    evaluate_investment (.ok 2600) (some emptyPropsData) brooklynParams
      = .ok { averageRent := 2600, currency := "USD", properties := [] } := by
  with_unfolding_all rfl

/-- C1 (amended): a run whose normalization produces zero surviving records
*succeeds* with an empty `properties` list; no distinct `NoValidListingsError`
exists, so such a run is indistinguishable from a legitimate zero-match
result. -/
theorem c1_amended (avg : ℚ) (data : Json) (params : SearchParams)
    (h : parse_listings_with_openai data avg params = .ok []) :
    evaluate_investment (.ok avg) (some data) params
      = .ok { averageRent := avg, currency := "USD", properties := [] } := by
  dsimp only [evaluate_investment]
  rw [h]
  rfl

/-- Witness for `c1_amended` at a concrete empty-normalization run. -/
theorem c1_witness :
    evaluate_investment (.ok 3100) (some emptyPropsData) brooklynParams
      = .ok { averageRent := 3100, currency := "USD", properties := [] } :=
  c1_amended 3100 emptyPropsData brooklynParams (by with_unfolding_all rfl)

/-!  ## Claim C2  -/

/-- A listings reply whose single record carries an explicit `sqft` of 0. -/
def zeroSqftData : Json :=
  Json.obj [("properties", Json.arr
    [Json.obj [("price_usd", Json.int 450000), ("sqft", Json.int 0)]])]

/-- The surviving record of `zeroSqftData`: `sqft = 0`. -/
def zeroSqftRecord : PropertyResult :=
  { id := "prop-1", address := "Unknown address", price := 450000, bedrooms := 2,
    sqft := 0, estimatedRent := 2600, grossYield := 26/375, url := "" }

/-- C2 counterexample: the claim requires `sqft > 0` for every record of a
successful run, but the normalizer never validates `sqft`: this successful
run returns a record whose `sqft` is 0. -/
theorem c2_counterexample :
    evaluate_investment (.ok 2600) (some zeroSqftData) brooklynParams
      = .ok { averageRent := 2600, currency := "USD",
              properties := [zeroSqftRecord] }
    ∧ ¬ 0 < zeroSqftRecord.sqft := by
  refine ⟨by with_unfolding_all rfl, ?_⟩
  norm_num [zeroSqftRecord]

/-- C2 (amended): for every successful main.py run, every returned record has
`price > 0`, `estimatedRent > 0` and `grossYield = estimatedRent × 12 / price`
exactly; the `sqft > 0` part of the claim does not hold (and the app.py
variant validates none of these). -/
theorem c2_amended (rentq : ℚ) (data : Json) (params : SearchParams)
    (resp : EvaluationResponse) (r : PropertyResult)
    (hrun : evaluate_investment (.ok rentq) (some data) params = .ok resp)
    (hr : r ∈ resp.properties) :
    0 < r.price ∧ 0 < r.estimatedRent ∧
      r.grossYield = r.estimatedRent * 12 / r.price := by
  obtain ⟨props, hp, rfl⟩ := evaluate_ok_inv hrun
  have hr' : r ∈ pySortDesc props := hr
  rw [mem_pySortDesc] at hr'
  obtain ⟨j, p, hjp⟩ := parse_ok_mem hp hr'
  obtain ⟨h1, h2, h3, h4⟩ := parseListing_inv hjp
  exact ⟨h1, by rw [h2]; exact h3, h4⟩

/-- Witness for `c2_amended` at a concrete successful run. -/
theorem c2_witness :
    0 < posRecord.price ∧ 0 < posRecord.estimatedRent ∧
      posRecord.grossYield = posRecord.estimatedRent * 12 / posRecord.price :=
  c2_amended 2600 posListingData brooklynParams
    { averageRent := 2600, currency := "USD", properties := [posRecord] }
    posRecord (by with_unfolding_all rfl) (by simp)

/-!  ## Claim C3  -/

/-- C3: single-rent-source design.  In both pipeline variants, every record
of a successful run carries the run's one resolved average rent as its
`estimatedRent`; no record gets an independent rent estimate. -/
theorem c3_single_rent_source :
    (∀ (rentq : ℚ) (data : Json) (params : SearchParams)
       (resp : EvaluationResponse) (r : PropertyResult),
       evaluate_investment (.ok rentq) (some data) params = .ok resp →
       r ∈ resp.properties → r.estimatedRent = resp.averageRent)
    ∧ (∀ (rentResp listingsResp : Except String Json) (params : SearchParams)
         (resp : EvaluationResponse) (r : PropertyResult),
         app_evaluate_investment rentResp listingsResp params = .ok resp →
         r ∈ resp.properties → r.estimatedRent = resp.averageRent) := by
  constructor
  · intro rentq data params resp r hrun hr
    obtain ⟨props, hp, rfl⟩ := evaluate_ok_inv hrun
    have hr' : r ∈ pySortDesc props := hr
    rw [mem_pySortDesc] at hr'
    obtain ⟨j, p, hjp⟩ := parse_ok_mem hp hr'
    exact (parseListing_inv hjp).2.1
  · intro rentResp listingsResp params resp r hrun hr
    obtain ⟨avg, props, havg, hp, rfl⟩ := app_evaluate_ok_inv hrun
    have hr' : r ∈ pySortDesc props := hr
    rw [mem_pySortDesc] at hr'
    obtain ⟨j, item, hji⟩ := app_parse_ok_mem hp hr'
    exact (appItemToResult_inv hji).1

/-- Witness for `c3_single_rent_source` at a concrete run. -/
theorem c3_witness :
    posRecord.estimatedRent =
      ({ averageRent := 2600, currency := "USD",
         properties := [posRecord] } : EvaluationResponse).averageRent :=
  c3_single_rent_source.1 2600 posListingData brooklynParams
    { averageRent := 2600, currency := "USD", properties := [posRecord] }
    posRecord (by with_unfolding_all rfl) (by simp)

/-!  ## Claim C4  -/

/-- A Gemini listings reply with an empty `listings` array. -/
def emptyListingsData : Json := Json.obj [("listings", Json.arr [])]

/-- C4 counterexample: the claim says an unusable rent reply always fails the
run and a fabricated zero rent is never substituted.  In app.py,
`call_gemini_json` replaces *any* failure by the literal fallback
`{"average_rent": 0, "error": ...}` and the evaluation endpoint then succeeds
with that fabricated zero rent. -/
theorem c4_counterexample :
    call_gemini_json (.error "Gemini API Error: timeout")
      = Json.obj [("average_rent", Json.int 0),
                  ("error", Json.str "Gemini API Error: timeout")]
    ∧ app_evaluate_investment (.error "Gemini API Error: timeout")
        (.ok (Json.obj [("listings",
          Json.arr [Json.obj [("price", Json.int 500000)]])])) brooklynParams
      = .ok { averageRent := 0, currency := "USD",
              properties := [{ id := "prop_0", address := "Unknown",
                               price := 500000, bedrooms := 2, sqft := 0,
                               estimatedRent := 0, grossYield := 0,
                               url := "" }] } :=
  ⟨rfl, by with_unfolding_all rfl⟩

/-- C4 (amended): in the main.py variant an unparsable rent reply, or an
absent/unconvertible/non-positive `average_rent_usd`, fails the run, and any
successfully resolved rent is strictly positive; in the app.py variant a
failed rent call is masked by the fabricated fallback `average_rent = 0` and
the run continues successfully with zero rent. -/
theorem c4_amended :
    (∀ (p? : Option Json) (q : ℚ),
       fetch_average_rent_from_perplexity p? = .ok q → 0 < q)
    ∧ fetch_average_rent_from_perplexity none
        = .error "Failed to parse rent JSON from Perplexity"
    ∧ (∀ e : String, call_gemini_json (.error e)
        = Json.obj [("average_rent", Json.int 0), ("error", Json.str e)])
    ∧ (∀ (e : String) (params : SearchParams),
        app_evaluate_investment (.error e) (.ok emptyListingsData) params
          = .ok { averageRent := 0, currency := "USD", properties := [] }) := by
  refine ⟨?_, rfl, fun e => rfl, fun e params => by with_unfolding_all rfl⟩
  intro p? q h
  unfold fetch_average_rent_from_perplexity at h
  split at h
  · exact Except.noConfusion h
  · split at h
    · split at h
      · exact Except.noConfusion h
      · split at h
        · exact Except.noConfusion h
        · split at h
          · exact Except.noConfusion h
          · rename_i hpos
            injection h with h
            subst h
            exact lt_of_not_ge hpos
    · exact Except.noConfusion h

/-- Witness for `c4_amended` at a concrete well-formed rent reply. -/
theorem c4_witness : (0 : ℚ) < 2600 :=
  c4_amended.1 (some (Json.obj [("average_rent_usd", Json.int 2600)])) 2600
    (by with_unfolding_all rfl)

/-!  ## Claim C5  -/

/-- A Gemini listings reply with one priced record. -/
def c5ListingsData : Json :=
  Json.obj [("listings", Json.arr [Json.obj [("price", Json.int 450000)]])]

/-- The record app.py builds for it at average rent 2600: the stored
`grossYield` is `round4 (2600·12/450000) = 0.0693`, not the exact
`26/375 = 0.069333…`. -/
def c5AppRecord : PropertyResult :=
  { id := "prop_0", address := "Unknown", price := 450000, bedrooms := 2,
    sqft := 0, estimatedRent := 2600, grossYield := 693/10000, url := "" }

/-- C5 counterexample: the claim says grossYield is never rounded before
ranking.  In app.py the 4-decimal rounding happens inside
`parse_and_find_properties`, at record construction — i.e. *before*
`evaluate_investment` sorts — so the stored (and sorted-on) yield differs
from the exact `estimatedRent × 12 / price`. -/
theorem c5_counterexample :
    parse_and_find_properties brooklynParams 2600 c5ListingsData
      = .ok [c5AppRecord]
    ∧ c5AppRecord.grossYield ≠ 2600 * 12 / 450000 := by
  refine ⟨by with_unfolding_all rfl, ?_⟩
  show (693 / 10000 : ℚ) ≠ 2600 * 12 / 450000
  norm_num

/-- C5 (amended): in main.py, `grossYield = estimatedRent × 12 / price`
exactly, with no rounding anywhere; in app.py, `grossYield` is already
rounded to 4 decimals when the record is constructed, before the sort. -/
theorem c5_amended :
    (∀ (data : Json) (avg : ℚ) (params : SearchParams)
       (props : List PropertyResult) (r : PropertyResult),
       parse_listings_with_openai data avg params = .ok props → r ∈ props →
       r.grossYield = r.estimatedRent * 12 / r.price)
    ∧ (∀ (params : SearchParams) (avg : ℚ) (data : Json)
         (props : List PropertyResult) (r : PropertyResult),
         parse_and_find_properties params avg data = .ok props → r ∈ props →
         r.grossYield =
           round4 (if 0 < r.price then r.estimatedRent * 12 / r.price else 0)) := by
  constructor
  · intro data avg params props r hp hr
    obtain ⟨j, p, hjp⟩ := parse_ok_mem hp hr
    exact (parseListing_inv hjp).2.2.2
  · intro params avg data props r hp hr
    obtain ⟨j, item, hji⟩ := app_parse_ok_mem hp hr
    exact (appItemToResult_inv hji).2

/-- Witness for `c5_amended` at concrete runs of both variants. -/
theorem c5_witness :
    posRecord.grossYield = posRecord.estimatedRent * 12 / posRecord.price
    ∧ c5AppRecord.grossYield =
        round4 (if 0 < c5AppRecord.price
                then c5AppRecord.estimatedRent * 12 / c5AppRecord.price else 0) :=
  ⟨c5_amended.1 posListingData 2600 brooklynParams [posRecord] posRecord
      (by with_unfolding_all rfl) (by simp),
   c5_amended.2 brooklynParams 2600 c5ListingsData [c5AppRecord] c5AppRecord
      (by with_unfolding_all rfl) (by simp)⟩

/-!  ## Claim C6  -/

/-- Two records with equal yields (both price 500000) and distinct ids, to
exercise stability. -/
def twoEqualData : Json :=
  Json.obj [("properties", Json.arr
    [Json.obj [("id", Json.str "first"), ("price_usd", Json.int 500000)],
     Json.obj [("id", Json.str "second"), ("price_usd", Json.int 500000)]])]

/-- The two equal-yield records of `twoEqualData`, in extraction order. -/
def recFirst : PropertyResult :=
  { id := "first", address := "Unknown address", price := 500000, bedrooms := 2,
    sqft := 900, estimatedRent := 2600, grossYield := 39/625, url := "" }

def recSecond : PropertyResult :=
  { id := "second", address := "Unknown address", price := 500000, bedrooms := 2,
    sqft := 900, estimatedRent := 2600, grossYield := 39/625, url := "" }

/-- A Gemini listings reply with two equal-priced records, to exercise
stability of the app.py sort. -/
def appTwoEqualData : Json :=
  Json.obj [("listings", Json.arr
    [Json.obj [("address", Json.str "first st"), ("price", Json.int 500000)],
     Json.obj [("address", Json.str "second st"), ("price", Json.int 500000)]])]

/-- The two equal-yield records app.py builds from `appTwoEqualData` at
average rent 2600, in extraction order
(`round4 (2600·12/500000) = 0.0624 = 39/625` exactly). -/
def appRecFirst : PropertyResult :=
  { id := "prop_0", address := "first st", price := 500000, bedrooms := 2,
    sqft := 0, estimatedRent := 2600, grossYield := 39/625, url := "" }

def appRecSecond : PropertyResult :=
  { id := "prop_1", address := "second st", price := 500000, bedrooms := 2,
    sqft := 0, estimatedRent := 2600, grossYield := 39/625, url := "" }

/-- C6: for every successful run of either variant, the returned `properties`
sequence is descending in `grossYield` (adjacent pairs satisfy
`grossYield[i] ≥ grossYield[i+1]`), and the sort is stable: for every yield
value, the subsequence of records carrying it is exactly the one of that
variant's normalizer output, in its original extraction order. -/
theorem c6_sorted_stable :
    (∀ (rentq : ℚ) (data : Json) (params : SearchParams)
       (resp : EvaluationResponse),
       evaluate_investment (.ok rentq) (some data) params = .ok resp →
       resp.properties.Chain' (fun a b => b.grossYield ≤ a.grossYield)
       ∧ ∀ (props : List PropertyResult) (y : ℚ),
           parse_listings_with_openai data rentq params = .ok props →
           resp.properties.filter (fun x => decide (x.grossYield = y))
             = props.filter (fun x => decide (x.grossYield = y)))
    ∧ (∀ (rentResp listingsResp : Except String Json) (params : SearchParams)
         (resp : EvaluationResponse),
         app_evaluate_investment rentResp listingsResp params = .ok resp →
         resp.properties.Chain' (fun a b => b.grossYield ≤ a.grossYield)
         ∧ ∀ (avg : ℚ) (props : List PropertyResult) (y : ℚ),
             pyNum (dictGet (call_gemini_json rentResp) "average_rent" (.int 0))
               = some avg →
             parse_and_find_properties params avg (call_gemini_json listingsResp)
               = .ok props →
             resp.properties.filter (fun x => decide (x.grossYield = y))
               = props.filter (fun x => decide (x.grossYield = y))) := by
  constructor
  · intro rentq data params resp hrun
    obtain ⟨props, hp, rfl⟩ := evaluate_ok_inv hrun
    constructor
    · exact (pairwise_pySortDesc props).chain'
    · intro props' y hp'
      rw [hp] at hp'
      injection hp' with hp'
      subst hp'
      exact filter_pySortDesc y props
  · intro rentResp listingsResp params resp hrun
    obtain ⟨avg0, props0, havg0, hp0, rfl⟩ := app_evaluate_ok_inv hrun
    constructor
    · exact (pairwise_pySortDesc props0).chain'
    · intro avg props y havg hp
      rw [havg0] at havg
      injection havg with havg
      subst havg
      rw [hp0] at hp
      injection hp with hp
      subst hp
      exact filter_pySortDesc y props0

/-- Witness for `c6_sorted_stable` on concrete runs of *both* variants, each
with two equal-yield records: both outputs are descending and keep the
extraction order (`first` before `second`). -/
theorem c6_witness :
    (([recFirst, recSecond] : List PropertyResult).Chain'
        (fun a b => b.grossYield ≤ a.grossYield)
      ∧ ([recFirst, recSecond] : List PropertyResult).filter
          (fun x => decide (x.grossYield = 39/625))
        = [recFirst, recSecond].filter (fun x => decide (x.grossYield = 39/625)))
    ∧ (([appRecFirst, appRecSecond] : List PropertyResult).Chain'
        (fun a b => b.grossYield ≤ a.grossYield)
      ∧ ([appRecFirst, appRecSecond] : List PropertyResult).filter
          (fun x => decide (x.grossYield = 39/625))
        = [appRecFirst, appRecSecond].filter
            (fun x => decide (x.grossYield = 39/625))) := by
  constructor
  · have h := c6_sorted_stable.1 2600 twoEqualData brooklynParams
      { averageRent := 2600, currency := "USD",
        properties := [recFirst, recSecond] } (by with_unfolding_all rfl)
    exact ⟨h.1, h.2 [recFirst, recSecond] (39/625) (by with_unfolding_all rfl)⟩
  · have h := c6_sorted_stable.2 (.ok (Json.obj [("average_rent", Json.int 2600)]))
      (.ok appTwoEqualData) brooklynParams
      { averageRent := 2600, currency := "USD",
        properties := [appRecFirst, appRecSecond] } (by with_unfolding_all rfl)
    exact ⟨h.1, h.2 2600 [appRecFirst, appRecSecond] (39/625)
      (by with_unfolding_all rfl) (by with_unfolding_all rfl)⟩

/-!  ## Claim C7  -/

theorem ratOfDigits_nonneg (l : List Char) : 0 ≤ ratOfDigits l := by
  unfold ratOfDigits
  dsimp only
  positivity

/-- C7 counterexample: `"0"` is a numeric-looking string containing a digit,
yet `coerceFloat` (`_safe_float`) returns 0 — not a value `> 0` — so
"`coerceFloat(s) > 0` iff `s` contains at least one digit" fails. -/
theorem c7_counterexample :
    _safe_float (Json.str "0") = some 0
    ∧ "0".toList.any Char.isDigit = true
    ∧ ¬ (0 : ℚ) < 0 :=
  ⟨by with_unfolding_all rfl, by decide, by norm_num⟩

/-- C7 (amended): any value `coerceFloat` returns on a string is `≥ 0` (never
negative — signs are stripped) and can only exist when the string contains a
digit; and it fails exactly when the stripped digits-and-dots text is empty
or unparsable (more than one decimal point, or no digit). -/
theorem c7_amended (s : String) :
    (∀ q : ℚ, _safe_float (Json.str s) = some q →
       0 ≤ q ∧ s.toList.any Char.isDigit = true)
    ∧ (_safe_float (Json.str s) = none ↔
        (cleanedOf s = [] ∨ pyFloatAccepts (cleanedOf s) = false)) := by
  constructor
  · intro q h
    unfold _safe_float at h
    dsimp only at h
    split at h
    · exact Option.noConfusion h
    · unfold parseDigitsDot at h
      split at h
      · rename_i hacc
        injection h with h
        subst h
        refine ⟨ratOfDigits_nonneg _, ?_⟩
        have hdig : (cleanedOf s).any Char.isDigit = true := by
          unfold pyFloatAccepts at hacc
          simp only [Bool.and_eq_true] at hacc
          exact hacc.2
        rw [List.any_eq_true] at hdig ⊢
        obtain ⟨c, hc, hcd⟩ := hdig
        unfold cleanedOf at hc
        exact ⟨c, (List.mem_filter.1 hc).1, hcd⟩
      · exact Option.noConfusion h
  · constructor
    · intro h
      unfold _safe_float at h
      dsimp only at h
      split at h
      · rename_i he
        exact Or.inl (List.isEmpty_iff.1 he)
      · unfold parseDigitsDot at h
        split at h
        · exact Option.noConfusion h
        · rename_i hacc
          exact Or.inr (Bool.eq_false_iff.2 hacc)
    · intro h
      unfold _safe_float
      dsimp only
      rcases h with hcl | hacc
      · simp [hcl]
      · by_cases hcl : (cleanedOf s).isEmpty <;>
          simp [hcl, parseDigitsDot, hacc]

/-- Witness for `c7_amended` at a concrete currency string. -/
theorem c7_witness :
    0 ≤ (450000 : ℚ) ∧ "$450,000".toList.any Char.isDigit = true :=
  (c7_amended "$450,000").1 450000 (by with_unfolding_all rfl)

/-!  ## Claim C8  -/

/-- Modelled from the spec's words, for comparison with the source: resolve
the price from the *first present* of the accepted key aliases
(`price_usd`, `price`, `asking_price`), regardless of the value found. -/
def firstPresentPriceAlias (p : Json) : Option Json :=
  match Json.get? p "price_usd" with
  | some v => some v
  | none =>
    match Json.get? p "price" with
    | some v => some v
    | none => Json.get? p "asking_price"

/-- A record whose first alias is present but falsy (0), with a truthy
second alias. -/
def falsyAliasItem : Json :=
  Json.obj [("price_usd", Json.int 0), ("price", Json.int 500000)]

def falsyAliasData : Json := Json.obj [("properties", Json.arr [falsyAliasItem])]

/-- C8 counterexample: the claim's "first present alias" rule would resolve
`price_usd = 0` and reject the record (price ≤ 0).  The code uses Python
`or`, which skips the falsy present alias: it resolves 500000 and the record
*survives*. -/
theorem c8_counterexample :
    firstPresentPriceAlias falsyAliasItem = some (Json.int 0)
    ∧ price_raw_of falsyAliasItem = Json.int 500000
    ∧ parse_listings_with_openai falsyAliasData 2600 brooklynParams
        = .ok [posRecord] := by
  refine ⟨rfl, by with_unfolding_all rfl, by with_unfolding_all rfl⟩

/-- C8 (amended): the price is resolved from the first alias
(`price_usd`, `price`, `asking_price`) whose value is present *and truthy*
(Python `or` semantics — present-but-falsy values such as 0 are passed
over); a record with no alias present at all is skipped; and a skipped
record never aborts the batch — the loop continues with the rest. -/
theorem c8_amended :
    (∀ p v : Json, Json.get? p "price_usd" = some v → pyTruthy v = true →
       price_raw_of p = v)
    ∧ (∀ p v : Json, pyTruthy (dictGet p "price_usd" .null) = false →
         Json.get? p "price" = some v → pyTruthy v = true → price_raw_of p = v)
    ∧ (∀ p : Json, Json.get? p "price_usd" = none → Json.get? p "price" = none →
         Json.get? p "asking_price" = none →
         ∀ (avg : ℚ) (params : SearchParams) (i : Nat),
           parseListing avg params i p = none)
    ∧ (∀ (avg : ℚ) (params : SearchParams) (i : Nat) (p : Json)
         (rest : List Json), parseListing avg params i p = none →
         normalizeFrom avg params i (p :: rest)
           = normalizeFrom avg params (i + 1) rest) := by
  refine ⟨?_, ?_, ?_, ?_⟩
  · intro p v hv htv
    unfold price_raw_of dictGet pyOr
    rw [hv]
    simp [htv]
  · intro p v h0 hv htv
    unfold price_raw_of pyOr
    rw [h0]
    unfold dictGet
    rw [hv]
    simp [htv]
  · intro p h1 h2 h3 avg params i
    cases p <;> try rfl
    unfold parseListing
    simp [price_raw_of, dictGet, pyOr, pyTruthy, h1, h2, h3]
  · intro avg params i p rest h
    show (match parseListing avg params i p with
          | some r => r :: normalizeFrom avg params (i + 1) rest
          | none => normalizeFrom avg params (i + 1) rest)
        = normalizeFrom avg params (i + 1) rest
    rw [h]

/-- Witness for `c8_amended` at concrete records. -/
theorem c8_witness :
    price_raw_of (Json.obj [("price_usd", Json.int 450000)]) = Json.int 450000
    ∧ price_raw_of falsyAliasItem = Json.int 500000
    ∧ parseListing 2600 brooklynParams 1 (Json.obj [("address", Json.str "x")]) = none
    ∧ normalizeFrom 2600 brooklynParams 1 [Json.obj [("address", Json.str "x")]]
        = normalizeFrom 2600 brooklynParams 2 [] :=
  ⟨c8_amended.1 _ _ rfl rfl,
   c8_amended.2.1 _ _ rfl rfl rfl,
   c8_amended.2.2.1 (Json.obj [("address", Json.str "x")]) rfl rfl rfl
     2600 brooklynParams 1,
   c8_amended.2.2.2 2600 brooklynParams 1 _ [] (by with_unfolding_all rfl)⟩

/-!  ## Claim C9  -/

theorem dropWhile_dropWhile (p : Char → Bool) (l : List Char) :
    (l.dropWhile p).dropWhile p = l.dropWhile p := by
  induction l with
  | nil => rfl
  | cons a as ih =>
    by_cases h : p a
    · simp [List.dropWhile_cons, h, ih]
    · simp [List.dropWhile_cons, h]

theorem dropWhile_eq_drop (p : Char → Bool) (z : List Char) :
    ∃ n, z.dropWhile p = z.drop n := by
  induction z with
  | nil => exact ⟨0, rfl⟩
  | cons a as ih =>
    by_cases h : p a
    · obtain ⟨n, hn⟩ := ih
      exact ⟨n + 1, by simp [List.dropWhile_cons, h, hn]⟩
    · exact ⟨0, by simp [List.dropWhile_cons, h]⟩

theorem dropWhile_take (p : Char → Bool) (y : List Char)
    (h : y.dropWhile p = y) (n : Nat) :
    (y.take n).dropWhile p = y.take n := by
  cases y with
  | nil => simp
  | cons a as =>
    have ha : p a = false := by
      by_contra hpa
      rw [Bool.not_eq_false] at hpa
      rw [List.dropWhile_cons, if_pos hpa] at h
      have := congrArg List.length h
      have hle := (List.dropWhile_sublist p (l := as)).length_le
      simp at this
      omega
    cases n with
    | zero => simp
    | succ n => simp [List.take_succ_cons, List.dropWhile_cons, ha]

theorem rstrip_rstrip (x : List Char) : rstripWs (rstripWs x) = rstripWs x := by
  unfold rstripWs
  rw [List.reverse_reverse, dropWhile_dropWhile]

theorem dropWhile_rstrip (y : List Char) (h : y.dropWhile pyIsSpace = y) :
    (rstripWs y).dropWhile pyIsSpace = rstripWs y := by
  obtain ⟨n, hn⟩ := dropWhile_eq_drop pyIsSpace y.reverse
  have hy : rstripWs y = y.take (y.length - n) := by
    rw [rstripWs, hn, List.reverse_drop, List.reverse_reverse, List.length_reverse]
  rw [hy]
  exact dropWhile_take pyIsSpace y h _

theorem stripWs_idem (l : List Char) : stripWs (stripWs l) = stripWs l := by
  show rstripWs (lstripWs (rstripWs (lstripWs l))) = rstripWs (lstripWs l)
  have h1 : lstripWs (rstripWs (lstripWs l)) = rstripWs (lstripWs l) :=
    dropWhile_rstrip (lstripWs l) (dropWhile_dropWhile pyIsSpace l)
  rw [h1, rstrip_rstrip]

/-- C9 counterexample: fence stripping is *not* idempotent.  On
`"```\n```x"`, one pass removes the opening-fence line (no closing fence is
detected, because the text ends in `x`), leaving `"```x"`; a second pass then
strips the leading backticks, yielding `"x"`. -/
theorem c9_counterexample :
    strip_markdown_fences "```\n```x" = "```x"
    ∧ strip_markdown_fences (strip_markdown_fences "```\n```x") = "x"
    ∧ ("x" : String) ≠ "```x" :=
  ⟨by decide, by decide, by decide⟩

/-- C9 (amended): applying the stripper to text whose trimmed form does not
begin with a fence returns the trimmed input unchanged, and on such inputs
stripping twice equals stripping once; but idempotence does *not* hold in
general (see the counterexample). -/
theorem c9_amended (s : String)
    (h : startsWithChars fenceChars (stripWs s.toList) = false) :
    strip_markdown_fences s = (stripWs s.toList).asString
    ∧ strip_markdown_fences (strip_markdown_fences s) = strip_markdown_fences s := by
  have h1 : strip_markdown_fences s = (stripWs s.toList).asString := by
    unfold strip_markdown_fences stripFencesChars
    dsimp only
    rw [h]
    simp
  refine ⟨h1, ?_⟩
  rw [h1]
  have htl : ((stripWs s.toList).asString).toList = stripWs s.toList := rfl
  unfold strip_markdown_fences stripFencesChars
  dsimp only
  rw [htl, stripWs_idem, h]
  simp

/-- Witness for `c9_amended` on a concrete unfenced input. -/
theorem c9_witness :
    strip_markdown_fences "  plain text  " = (stripWs "  plain text  ".toList).asString
    ∧ strip_markdown_fences (strip_markdown_fences "  plain text  ")
        = strip_markdown_fences "  plain text  " :=
  c9_amended "  plain text  " (by decide)

/-!  ## Claim C10  -/

theorem firstDigitRun_empty_iff (l : List Char) :
    ((l.dropWhile (fun c => !c.isDigit)).takeWhile Char.isDigit).isEmpty = true
      ↔ l.any Char.isDigit = false := by
  induction l with
  | nil => simp
  | cons a as ih =>
    by_cases h : a.isDigit
    · simp [List.dropWhile_cons, List.takeWhile_cons, h]
    · simp [List.dropWhile_cons, h, ih]

/-- C10: `coerceInt` (`_safe_int`) on a string either fails (exactly when the
string has no digit) or returns a non-negative integer: the first maximal
digit run is taken without any sign, so `"-3"` coerces to `3`, never to a
negative value. -/
theorem c10_safe_int_nonneg :
    (∀ s : String,
      (_safe_int (Json.str s) = none ↔ s.toList.any Char.isDigit = false)
      ∧ ∀ n : Int, _safe_int (Json.str s) = some n → 0 ≤ n)
    ∧ _safe_int (Json.str "-3") = some 3 := by
  refine ⟨fun s => ⟨?_, ?_⟩, by decide⟩
  · unfold _safe_int
    dsimp only
    rw [← firstDigitRun_empty_iff]
    constructor
    · intro h
      by_contra hne
      rw [Bool.not_eq_true, ← Bool.not_eq_true, List.isEmpty_iff] at hne
      rw [if_neg (by simpa [List.isEmpty_iff] using hne)] at h
      exact Option.noConfusion h
    · intro h
      rw [if_pos h]
  · intro n h
    unfold _safe_int at h
    dsimp only at h
    split at h
    · exact Option.noConfusion h
    · injection h with h
      subst h
      exact Int.natCast_nonneg _

/-- Witness: applying the theorem to `"-3"` — the sign is dropped and the
result is the non-negative integer 3. -/
theorem c10_witness :
    _safe_int (Json.str "-3") = some 3 ∧ (0 : Int) ≤ 3 :=
  ⟨by decide, (c10_safe_int_nonneg.1 "-3").2 3 (by decide)⟩
